import Mathlib

/-!
Shallow embedding of the `blenderpy` repository (files `blender.py` and
`src/main.py`) for checking its natural-language specification.

Python values that the code inspects at runtime are modelled by explicit
inductive types; Python exceptions are modelled by `Except PyErr`;
mutation of `self.app` is modelled by explicit state passing; the
filesystem touched by `run_gist` is modelled by an explicit record of
directories and files.
-/

/-- Python exceptions raised by the embedded code paths. -/
inductive PyErr where
  | valueError (msg : String)
  | typeError (msg : String)
  | attributeError (msg : String)
  | indexError (msg : String)
  | fileNotFoundError (path : String)
  | unsupportedOperation (msg : String)
deriving DecidableEq, Repr

/-- JSON-decoded Python values (the shape returned by `json.loads`), with
`null` also standing for Python `None`. -/
inductive JVal where
  | null
  | str (s : String)
  | num (n : Int)
  | obj (fields : List (String × JVal))
  | arr (elems : List JVal)

/-- Python `text is None`. -/
def JVal.isNull : JVal → Bool
  | .null => true
  | _ => false

/-- Python `dict.get(k, None)` on the field list of a JSON object:
first binding of the key, if any. -/
def dictGet (fields : List (String × JVal)) (k : String) : Option JVal :=
  (fields.find? (fun kv => kv.1 == k)).map (fun kv => kv.2)

/-- The `keys` argument of `extract_dict_value`: either a single text key
or a list of keys (Python dispatches on `isinstance(keys, str)`). -/
inductive Keys where
  | single (k : String)
  | list (ks : List String)

/-- The list-of-keys leg of `Blender.extract_dict_value`
(`blender.py`): `if data is None: return None`, otherwise evaluate
`self.extract_dict_value(data.get(keys[0]), keys[1:])` — Python resolves
the attribute `data.get` first (AttributeError when `data` is not a
dict), then evaluates the argument `keys[0]` (IndexError when the key
list is empty), and recurses on `keys[1:]`. -/
def extractList : JVal → List String → Except PyErr JVal
  | .null, _ => .ok .null
  | .obj _, [] => .error (.indexError "list index out of range")
  | .obj fields, k :: rest => extractList ((dictGet fields k).getD .null) rest
  | _, _ => .error (.attributeError "object has no attribute get")

/-- `Blender.extract_dict_value` (`blender.py`): `data is None` is checked
first; a single text key uses `data.get(keys, None)`; a list of keys
recurses through `extractList`. -/
def extract_dict_value (data : JVal) (keys : Keys) : Except PyErr JVal :=
  match data, keys with
  | .null, _ => .ok .null
  | .obj fields, .single k => .ok ((dictGet fields k).getD .null)
  | _, .single _ => .error (.attributeError "object has no attribute get")
  | data, .list ks => extractList data ks

/-- Python substring containment `needle in hay` on character lists. -/
def hasSubList (needle : List Char) : List Char → Bool
  | [] => needle.isEmpty
  | c :: cs => needle.isPrefixOf (c :: cs) || hasSubList needle cs

/-- The `.py`-appending step of `run` (both `blender.py` and
`src/main.py`): `if ".py" not in script: script = script + ".py"` —
note: substring containment, not a suffix test. -/
def ensure_py (script : String) : String :=
  if hasSubList ".py".data script.data then script else script ++ ".py"

/-- Suffix test, written from the spec sentence "For every script path
... that does not end with the suffix `.py`" (used only to state the
original claim; the code itself tests containment). -/
def endsWithPy (s : String) : Bool :=
  ".py".data.isSuffixOf s.data

/-- The three Blender options `run` reads from `kwargs`
(`kwargs.get("headless", True)` etc.); `none` models an absent key. -/
structure RunOpts where
  headless : Option Bool
  python : Option Bool
  audio : Option Bool

/-- `gui = "-b" if kwargs.get("headless", True) else ""` -/
def guiFlag (o : RunOpts) : String :=
  if o.headless.getD true then "-b" else ""

/-- `runtime = "-P" if kwargs.get("python", True) else ""` -/
def runtimeFlag (o : RunOpts) : String :=
  if o.python.getD true then "-P" else ""

/-- `audio = "-noaudio" if not kwargs.get("audio", False) else ""` -/
def audioFlag (o : RunOpts) : String :=
  if !(o.audio.getD false) then "-noaudio" else ""

/-- The f-string of `run`:
`f"{self.app} {audio} {gui} {runtime} {script} -- {python_args}"`. -/
def formatCmd (app audio gui runtime script pyArgs : String) : String :=
  app ++ " " ++ audio ++ " " ++ gui ++ " " ++ runtime ++ " " ++ script
    ++ " -- " ++ pyArgs

/-- The mutable state of a `Blender` instance: `self.app`. -/
structure BState where
  app : String
deriving DecidableEq

namespace Blender

/-- `Blender.run` (`blender.py`): assigns `self.app = binary` when
`binary` is not `None` (before any other check), raises `ValueError` when
`script` is `None`, otherwise appends `.py` when absent as a substring and
returns the formatted shell command. The returned pair is
(state after the call, command or exception). -/
def run (st : BState) (script : Option String) (binary : Option String)
    (args : List String) (opts : RunOpts) : BState × Except PyErr String :=
  let st1 : BState := match binary with
    | some b => ⟨b⟩
    | none => st
  match script with
  | none =>
      (st1, .error (.valueError
        "Provide either a local or external (gist) script source."))
  | some s =>
      (st1, .ok (formatCmd st1.app (audioFlag opts) (guiFlag opts)
        (runtimeFlag opts) (ensure_py s) (String.intercalate " " args)))

end Blender

/-- Python `argv.index("--")` on a list of tokens: index of the first
occurrence, `none` modelling the `ValueError` of a missed lookup. -/
def index_doubledash : List String → Option Nat
  | [] => none
  | x :: xs => if x == "--" then some 0 else (index_doubledash xs).map (· + 1)

namespace BlenderParser

/-- `BlenderParser._get_argv_after_doubledash` (`blender.py`):
`argv[argv.index("--") + 1 :]`, and `[]` when `"--"` is absent
(the `except ValueError` branch). -/
def _get_argv_after_doubledash (argv : List String) : List String :=
  match index_doubledash argv with
  | some idx => argv.drop (idx + 1)
  | none => []

end BlenderParser

/-- Python runtime values passed as `python_args` elements or `kwargs`
values in `src/main.py` (the code dispatches on `isinstance`). -/
inductive PyVal where
  | str (s : String)
  | bool (b : Bool)
  | int (n : Int)

/-- Python `isinstance(v, str)`. -/
def isStr : PyVal → Bool
  | .str _ => true
  | _ => false

/-- Python `isinstance(v, bool)`. -/
def isBoolV : PyVal → Bool
  | .bool _ => true
  | _ => false

/-- Python truthiness of the modelled values. -/
def truthy : PyVal → Bool
  | .str s => !s.isEmpty
  | .bool b => b
  | .int n => n != 0

/-- The text of a text value (only read under an `isStr` guard). -/
def strVal : PyVal → String
  | .str s => s
  | _ => ""

/-- Python `" ".join(python_args)`: raises `TypeError` (here `none`) when
any element is not text, else joins with single spaces. -/
def joinPy (vs : List PyVal) : Option String :=
  if vs.all isStr then some (String.intercalate " " (vs.map strVal))
  else none

/-- Python `kwargs.get(k, dflt)` on a keyword-argument association list. -/
def kwGet (kwargs : List (String × PyVal)) (k : String) (dflt : PyVal) : PyVal :=
  match kwargs.find? (fun kv => kv.1 == k) with
  | some kv => kv.2
  | none => dflt

namespace MainSrc

/-- First loop of `Blender._dry_run` (`src/main.py`): the first
non-text element of `python_args` yields the fixed message. -/
def checkArgs : List PyVal → Option String
  | [] => none
  | a :: rest =>
      if isStr a then checkArgs rest
      else some "All Python arguments should be a string."

/-- Second loop of `Blender._dry_run` (`src/main.py`): the first
keyword argument whose value is not a boolean yields
`f"{arg}; should be a boolean."`. -/
def checkKwargs : List (String × PyVal) → Option String
  | [] => none
  | kv :: rest =>
      if isBoolV kv.2 then checkKwargs rest
      else some (kv.1 ++ "; should be a boolean.")

/-- `Blender._dry_run` (`src/main.py`): returns the first error message,
or the empty string when every argument validates. -/
def _dry_run (python_args : List PyVal) (kwargs : List (String × PyVal)) :
    String :=
  match checkArgs python_args with
  | some e => e
  | none => (checkKwargs kwargs).getD ""

/-- `Blender.run` (`src/main.py`): raises `ValueError(error)` when
`_dry_run` returns a non-empty message, else appends `.py` when absent as
a substring, maps the options to flags by truthiness of
`kwargs.get(...)`, joins `python_args`, and formats the command. -/
def run (app script : String) (python_args : List PyVal)
    (kwargs : List (String × PyVal)) : Except String String :=
  let error := _dry_run python_args kwargs
  if error = "" then
    let script1 := ensure_py script
    let gui := if truthy (kwGet kwargs "headless" (.bool true)) then "-b" else ""
    let runtime := if truthy (kwGet kwargs "python" (.bool true)) then "-P" else ""
    let audio := if !truthy (kwGet kwargs "audio" (.bool false)) then "-noaudio" else ""
    match joinPy python_args with
    | some pa => .ok (formatCmd app audio gui runtime script1 pa)
    | none => .error "sequence item: expected str instance"
  else .error error

end MainSrc

/-- A single-quote character, as a string (for Python `repr` of text). -/
def sqChar : String := ⟨[Char.ofNat 39]⟩

/-- Python f-string interpolation of the `content` argument of
`run_gist`: `None` prints as `None`, a plain string prints bare, a list
prints as `[<repr of each key>, ...]`. -/
def formatContent : Option Keys → String
  | none => "None"
  | some (.single k) => k
  | some (.list ks) =>
      "[" ++ String.intercalate ", " (ks.map (fun k => sqChar ++ k ++ sqChar)) ++ "]"

/-- The filesystem state touched by `run_gist`: existing directory paths
and files (path paired with contents). -/
structure FS where
  dirs : List String
  files : List (String × String)

/-- Whether `path` lies inside directory `dir` (has `dir ++ "/"` as a
path head). -/
def isUnder (dir path : String) : Bool :=
  (dir ++ "/").data.isPrefixOf path.data

/-- Whether a file exists at `path`. -/
def fileExists (fs : FS) (path : String) : Bool :=
  fs.files.any (fun f => f.1 == path)

/-- Deletion of the scratch directory tree on exit of the
`TemporaryDirectory` context manager: the directory, every directory
under it and every file under it are removed. -/
def removeTree (fs : FS) (dir : String) : FS :=
  { dirs := fs.dirs.filter (fun d => d != dir && !isUnder dir d),
    files := fs.files.filter (fun f => !isUnder dir f.1) }

/-- Outcomes of the external effects of `run_gist`, fixed up front:
the fresh scratch directory name chosen by `TemporaryDirectory`, the
result of the HTTP fetch `get_gist(gid)` (JSON document or exception),
and the result of the eventual `self.run(fp)` subprocess call. -/
structure GistEnv where
  tempName : String
  gistResult : Except PyErr JVal
  runResult : Except PyErr String

/-- The `text = ...` selection of `run_gist` (`blender.py`): whole
document when `content is None`; `gist.get(content, None)` for a text
key (AttributeError when the document is not a dict); recursive descent
through `extract_dict_value` for a key list. -/
def gistText (gist : JVal) (content : Option Keys) : Except PyErr JVal :=
  match content with
  | none => .ok gist
  | some (.single c) =>
      match gist with
      | .obj fields => .ok ((dictGet fields c).getD .null)
      | _ => .error (.attributeError "object has no attribute get")
  | some (.list ks) => extract_dict_value gist (.list ks)

/-- The `with open(fp, "r") as opened: opened.writelines(text)` step of
`run_gist` (`blender.py`): the file is opened in read mode, so a missing
file raises `FileNotFoundError` and an existing one makes `writelines`
raise `io.UnsupportedOperation` — the step fails on every input. -/
def openReadWritelines (fs : FS) (path : String) : Except PyErr Unit :=
  if fileExists fs path then .error (.unsupportedOperation "not writable")
  else .error (.fileNotFoundError path)

/-- The body of the `with TemporaryDirectory() as temp:` block of
`Blender.run_gist` (`blender.py`): fetch the gist, compute
`fp = f"{temp}/{gid}"`, select `text`, raise `ValueError` naming
`content` when `text is None`, write the scratch file, run it. -/
def runGistBody (env : GistEnv) (fs : FS) (gid : String)
    (content : Option Keys) (temp : String) : Except PyErr String × FS :=
  match env.gistResult with
  | .error e => (.error e, fs)
  | .ok gist =>
      let fp := temp ++ "/" ++ gid
      match gistText gist content with
      | .error e => (.error e, fs)
      | .ok text =>
          if text.isNull then
            (.error (.valueError ("Could not find any content under "
              ++ formatContent content ++ ".")), fs)
          else
            match openReadWritelines fs fp with
            | .error e => (.error e, fs)
            | .ok _ => (env.runResult, fs)

/-- `Blender.run_gist` (`blender.py`): creates the scratch directory,
runs the body, and — by the context-manager semantics of
`TemporaryDirectory` — removes the scratch directory tree on every exit
path, normal or exceptional, before the result or exception reaches the
caller. -/
def run_gist (env : GistEnv) (fs : FS) (gid : String)
    (content : Option Keys) : Except PyErr String × FS :=
  let temp := env.tempName
  let fs1 : FS := { fs with dirs := temp :: fs.dirs }
  let out := runGistBody env fs1 gid content temp
  (out.1, removeTree out.2 temp)


/-! ### Helper lemmas -/

theorem isPrefixOf_self (l : List Char) : l.isPrefixOf l = true := by
  induction l with
  | nil => rfl
  | cons c cs ih => simp [List.isPrefixOf, ih]

theorem hasSubList_append_self (n l : List Char) :
    hasSubList n (l ++ n) = true := by
  induction l with
  | nil =>
      cases n with
      | nil => rfl
      | cons c cs => simp [hasSubList, isPrefixOf_self]
  | cons c cs ih => simp [hasSubList, ih]

/-! ### C1 — the `.py` suffix handling of `run` -/

/-- C1 (counterexample): the path `"a.pyx"` does not end with `".py"`,
yet the script token is not `"a.pyx" ++ ".py"` — the code tests substring
containment, not the suffix, so the claim as stated is false. -/
theorem C1_py_suffix_counterexample :
    endsWithPy "a.pyx" = false ∧ ensure_py "a.pyx" ≠ "a.pyx" ++ ".py" := by
  constructor
  · decide
  · decide

/-- C1 (amended): the script token equals `path ++ ".py"` exactly when
`".py"` does not occur anywhere in the path as a substring; when it
occurs anywhere (not necessarily at the end) the path is unchanged; the
transformation is idempotent. -/
theorem C1_py_suffix_amended (s : String) :
    (hasSubList ".py".data s.data = false → ensure_py s = s ++ ".py")
    ∧ (hasSubList ".py".data s.data = true → ensure_py s = s)
    ∧ ensure_py (ensure_py s) = ensure_py s := by
  refine ⟨fun h => by simp [ensure_py, h], fun h => by simp [ensure_py, h], ?_⟩
  by_cases h : hasSubList ".py".data s.data
  · simp [ensure_py, h]
  · have h1 : ensure_py s = s ++ ".py" := by simp [ensure_py, h]
    rw [h1]
    have h3 : ensure_py (s ++ ".py") = s ++ ".py" := by
      simp [ensure_py, hasSubList_append_self]
    rw [h3]

/-- C1 (witness): the amended theorem applied at `"generate"` (no `.py`
inside) and `"a.py"` (already suffixed). -/
theorem C1_py_suffix_amended_witness :
    ensure_py "generate" = "generate" ++ ".py" ∧ ensure_py "a.py" = "a.py" :=
  ⟨(C1_py_suffix_amended "generate").1 (by decide),
   (C1_py_suffix_amended "a.py").2.1 (by decide)⟩

/-! ### C2 — `extract_dict_value` -/

/-- C2 (code bug): on the spec's own first example the code raises
`AttributeError` instead of returning `"hello"` — after both keys are
consumed the recursion reaches `data = "hello"` with an empty key list,
and Python resolves `data.get` (no such attribute on a string) before
evaluating `keys[0]`, so a key list can never return a non-null value.
The null-short-circuit examples do hold. -/
theorem C2_extract_eval :
    extract_dict_value (.obj [("f1", .obj [("content", .str "hello")])])
        (.list ["f1", "content"])
      = .error (.attributeError "object has no attribute get")
    ∧ extract_dict_value (.obj [("f1", .obj [])]) (.list ["f1", "content"])
      = .ok .null
    ∧ extract_dict_value (.obj []) (.single "missing") = .ok .null :=
  ⟨rfl, rfl, rfl⟩

/-! ### C3 — the scratch-file write of `run_gist` -/

/-- C3 (code bug): `run_gist` opens the scratch file
`<scratch_dir>/<identifier>` with mode `"r"`, so the write step raises
`FileNotFoundError` on the evaluated input (the file cannot pre-exist in
the fresh scratch directory) and `run` is never reached — the file is
never created nor written. -/
theorem C3_materialize_eval :
    (run_gist ⟨"/tmp/t0", .ok (.obj [("f1", .str "hello")]), .ok "output"⟩
        ⟨[], []⟩ "abc" (some (.single "f1"))).1
      = .error (.fileNotFoundError "/tmp/t0/abc") := rfl

/-! ### C4 — the command format of `run` -/

/-- C4: for every combination of the three boolean options the command
is exactly
`<executable> <audio_flag> <headless_flag> <python_flag> <script> -- <joined args>`
with `headless → "-b"`, `python → "-P"`, `audio = false → "-noaudio"`,
and the absent-option defaults coincide with
`headless = true, python = true, audio = false`. -/
theorem C4_command_format (app script : String) (args : List String)
    (h p a : Bool) :
    (Blender.run ⟨app⟩ (some script) none args ⟨some h, some p, some a⟩).2
      = .ok (app ++ " " ++ (if a then "" else "-noaudio") ++ " "
          ++ (if h then "-b" else "") ++ " " ++ (if p then "-P" else "")
          ++ " " ++ ensure_py script ++ " -- " ++ String.intercalate " " args)
    ∧ (Blender.run ⟨app⟩ (some script) none args ⟨none, none, none⟩).2
      = (Blender.run ⟨app⟩ (some script) none args
          ⟨some true, some true, some false⟩).2 := by
  constructor
  · cases h <;> cases p <;> cases a <;> rfl
  · rfl

/-! ### C5 — null/empty script handling of `run` -/

/-- C5 (counterexample): an empty script path does not fail — `run`
accepts `""`, appends `".py"`, and produces a command whose script token
is `".py"`. -/
theorem C5_empty_script_counterexample :
    (Blender.run ⟨"blender"⟩ (some "") none [] ⟨none, none, none⟩).2
      = .ok "blender -noaudio -b -P .py -- " := rfl

/-- C5 (amended): `run` fails with `ValueError` exactly when the script
argument is `None`; every non-null script string — the empty string
included — yields a command. -/
theorem C5_null_script_amended (st : BState) (binary : Option String)
    (args : List String) (opts : RunOpts) :
    (Blender.run st none binary args opts).2
      = .error (.valueError
          "Provide either a local or external (gist) script source.")
    ∧ ∀ s : String, ∃ out : String,
        (Blender.run st (some s) binary args opts).2 = .ok out := by
  constructor
  · cases binary <;> rfl
  · intro s
    cases binary <;> exact ⟨_, rfl⟩

/-! ### C6 — argument and option validation of `src/main.py` -/

theorem checkArgs_of_bad (args : List PyVal) (hbad : args.all isStr = false) :
    MainSrc.checkArgs args = some "All Python arguments should be a string." := by
  induction args with
  | nil => simp at hbad
  | cons a rest ih =>
      by_cases ha : isStr a
      · simp only [List.all_cons, ha, Bool.true_and] at hbad
        simp [MainSrc.checkArgs, ha, ih hbad]
      · simp [MainSrc.checkArgs, ha]

theorem checkArgs_of_good (args : List PyVal) (hgood : args.all isStr = true) :
    MainSrc.checkArgs args = none := by
  induction args with
  | nil => rfl
  | cons a rest ih =>
      simp only [List.all_cons, Bool.and_eq_true] at hgood
      simp [MainSrc.checkArgs, hgood.1, ih hgood.2]

theorem checkKwargs_first_bad (pre rest : List (String × PyVal)) (k : String)
    (v : PyVal) (hpre : pre.all (fun kv => isBoolV kv.2) = true)
    (hv : isBoolV v = false) :
    MainSrc.checkKwargs (pre ++ (k, v) :: rest)
      = some (k ++ "; should be a boolean.") := by
  induction pre with
  | nil => simp [MainSrc.checkKwargs, hv]
  | cons kv pres ih =>
      simp only [List.all_cons, Bool.and_eq_true] at hpre
      simp [MainSrc.checkKwargs, hpre.1, ih hpre.2]

theorem checkKwargs_of_good (kwargs : List (String × PyVal))
    (h : kwargs.all (fun kv => isBoolV kv.2) = true) :
    MainSrc.checkKwargs kwargs = none := by
  induction kwargs with
  | nil => rfl
  | cons kv rest ih =>
      simp only [List.all_cons, Bool.and_eq_true] at h
      simp [MainSrc.checkKwargs, h.1, ih h.2]

theorem append_msg_ne_empty (k : String) :
    k ++ "; should be a boolean." ≠ "" := by
  intro hcontra
  have hd : k.data ++ "; should be a boolean.".data = ([] : List Char) :=
    congrArg String.data hcontra
  have h2 := (List.append_eq_nil.mp hd).2
  exact absurd h2 (by decide)

theorem run_of_good (app script : String) (args : List PyVal)
    (kwargs : List (String × PyVal)) (h1 : MainSrc.checkArgs args = none)
    (h2 : MainSrc.checkKwargs kwargs = none) (hgood : args.all isStr = true) :
    MainSrc.run app script args kwargs = .ok (formatCmd app
      (if !truthy (kwGet kwargs "audio" (.bool false)) then "-noaudio" else "")
      (if truthy (kwGet kwargs "headless" (.bool true)) then "-b" else "")
      (if truthy (kwGet kwargs "python" (.bool true)) then "-P" else "")
      (ensure_py script) (String.intercalate " " (args.map strVal))) := by
  simp [MainSrc.run, MainSrc._dry_run, h1, h2, joinPy, hgood]

/-- C6 (counterexample): the unrecognized option `"foo"` with the
non-boolean value `"bar"` is rejected, not ignored; and a non-text
element of `extra_args` produces the fixed generic message, which does
not name the offending value. -/
theorem C6_validation_counterexample :
    MainSrc.run "blender" "s" [] [("foo", PyVal.str "bar")]
      = .error "foo; should be a boolean."
    ∧ MainSrc.run "blender" "s" [PyVal.int 7] []
      = .error "All Python arguments should be a string." :=
  ⟨rfl, rfl⟩

/-- C6 (amended): a non-text element of `extra_args` fails with the
fixed message `"All Python arguments should be a string."`; a
non-boolean value of ANY option — recognized or not — fails with a
message naming that option; when every `extra_args` element is text and
every option value is boolean (unrecognized boolean options included,
which are then ignored) the build succeeds. -/
theorem C6_validation_amended (app script : String) (args : List PyVal)
    (kwargs pre rest : List (String × PyVal)) (k : String) (v : PyVal) :
    (args.all isStr = false →
      MainSrc.run app script args kwargs
        = .error "All Python arguments should be a string.")
    ∧ (args.all isStr = true → kwargs = pre ++ (k, v) :: rest →
        pre.all (fun kv => isBoolV kv.2) = true → isBoolV v = false →
        MainSrc.run app script args kwargs
          = .error (k ++ "; should be a boolean."))
    ∧ (args.all isStr = true → kwargs.all (fun kv => isBoolV kv.2) = true →
        ∃ out : String, MainSrc.run app script args kwargs = .ok out) := by
  refine ⟨?_, ?_, ?_⟩
  · intro hbad
    have h1 := checkArgs_of_bad args hbad
    simp [MainSrc.run, MainSrc._dry_run, h1]
  · intro hgood hkw hpre hv
    subst hkw
    have h1 := checkArgs_of_good args hgood
    have h2 := checkKwargs_first_bad pre rest k v hpre hv
    have hne := append_msg_ne_empty k
    simp [MainSrc.run, MainSrc._dry_run, h1, h2, hne]
  · intro hgood hkgood
    have h1 := checkArgs_of_good args hgood
    have h2 := checkKwargs_of_good kwargs hkgood
    exact ⟨_, run_of_good app script args kwargs h1 h2 hgood⟩

/-- C6 (witness): the amended theorem applied at a non-text argument, at
an unrecognized non-boolean option, and at an unrecognized boolean
option. -/
theorem C6_validation_amended_witness :
    MainSrc.run "blender" "s" [PyVal.int 7] []
      = .error "All Python arguments should be a string."
    ∧ MainSrc.run "blender" "s" [] [("foo", PyVal.str "bar")]
      = .error ("foo" ++ "; should be a boolean.")
    ∧ ∃ out : String,
        MainSrc.run "blender" "s" [] [("extra", PyVal.bool true)] = .ok out := by
  refine ⟨?_, ?_, ?_⟩
  · exact (C6_validation_amended "blender" "s" [PyVal.int 7] [] [] [] ""
      (PyVal.bool true)).1 (by decide)
  · exact (C6_validation_amended "blender" "s" [] [("foo", PyVal.str "bar")]
      [] [] "foo" (PyVal.str "bar")).2.1 (by decide) rfl (by decide) (by decide)
  · exact (C6_validation_amended "blender" "s" []
      [("extra", PyVal.bool true)] [] [] "" (PyVal.bool true)).2.2
      (by decide) (by decide)

/-! ### C7 — `ContentNotFound` on null extraction in `run_gist` -/

/-- C7: whenever content selection yields null, `run_gist` raises a
`ValueError` whose message names the requested key path (the formatted
`content` argument), and the subprocess is never run — the outcome does
not depend on the subprocess result at all. -/
theorem C7_content_not_found (env : GistEnv) (fs : FS) (gid : String)
    (content : Option Keys) (g : JVal)
    (hg : env.gistResult = .ok g) (hnull : gistText g content = .ok .null) :
    (run_gist env fs gid content).1
      = .error (.valueError ("Could not find any content under "
          ++ formatContent content ++ "."))
    ∧ ∀ r : Except PyErr String,
        (run_gist { env with runResult := r } fs gid content).1
          = (run_gist env fs gid content).1 := by
  constructor
  · simp [run_gist, runGistBody, hg, hnull, JVal.isNull]
  · intro r
    simp [run_gist, runGistBody, hg, hnull, JVal.isNull]

/-- C7 (witness): the theorem applied to a document `{"f1": {}}` and the
key path `["f1", "content"]`, whose extraction short-circuits to null. -/
theorem C7_content_not_found_witness :
    (run_gist ⟨"/tmp/t1", .ok (.obj [("f1", .obj [])]), .ok "out"⟩ ⟨[], []⟩
        "gid1" (some (.list ["f1", "content"]))).1
      = .error (.valueError ("Could not find any content under "
          ++ formatContent (some (.list ["f1", "content"])) ++ ".")) :=
  (C7_content_not_found ⟨"/tmp/t1", .ok (.obj [("f1", .obj [])]), .ok "out"⟩
    ⟨[], []⟩ "gid1" (some (.list ["f1", "content"]))
    (.obj [("f1", .obj [])]) rfl rfl).1

/-! ### C8 — the `--` argument splitter -/

theorem index_doubledash_absent (argv : List String) (h : "--" ∉ argv) :
    index_doubledash argv = none := by
  induction argv with
  | nil => rfl
  | cons x xs ih =>
      have hx : (x == "--") = false := by
        simp only [beq_eq_false_iff_ne]
        intro e
        exact h (by simp [e])
      simp [index_doubledash, hx,
        ih (fun hm => h (List.mem_cons_of_mem _ hm))]

theorem index_doubledash_append (pre post : List String) (h : "--" ∉ pre) :
    index_doubledash (pre ++ "--" :: post) = some pre.length := by
  induction pre with
  | nil => simp [index_doubledash]
  | cons x xs ih =>
      have hx : (x == "--") = false := by
        simp only [beq_eq_false_iff_ne]
        intro e
        exact h (by simp [e])
      simp [index_doubledash, hx,
        ih (fun hm => h (List.mem_cons_of_mem _ hm))]

/-- C8: the splitter returns exactly the tokens strictly after the first
`"--"`, in order, and the empty list when `"--"` is absent; the three
spec examples evaluate as stated. -/
theorem C8_split_after_separator (argv pre post : List String) :
    ("--" ∉ pre →
      BlenderParser._get_argv_after_doubledash (pre ++ "--" :: post) = post)
    ∧ ("--" ∉ argv → BlenderParser._get_argv_after_doubledash argv = [])
    ∧ BlenderParser._get_argv_after_doubledash ["a", "--", "b", "c"]
        = ["b", "c"]
    ∧ BlenderParser._get_argv_after_doubledash ["a", "b"] = []
    ∧ BlenderParser._get_argv_after_doubledash ["--"] = [] := by
  refine ⟨?_, ?_, rfl, rfl, rfl⟩
  · intro h
    have hi := index_doubledash_append pre post h
    simp only [BlenderParser._get_argv_after_doubledash, hi]
    rw [show pre ++ "--" :: post = (pre ++ ["--"]) ++ post by simp,
      show pre.length + 1 = (pre ++ ["--"]).length by simp]
    exact List.drop_left _ _
  · intro h
    simp [BlenderParser._get_argv_after_doubledash,
      index_doubledash_absent argv h]

/-- C8 (witness): the theorem applied at the split `["x"] ++ "--" ::
["y", "z"]` and at the separator-free list `["q"]`. -/
theorem C8_split_after_separator_witness :
    BlenderParser._get_argv_after_doubledash (["x"] ++ "--" :: ["y", "z"])
      = ["y", "z"]
    ∧ BlenderParser._get_argv_after_doubledash ["q"] = [] :=
  ⟨(C8_split_after_separator ["q"] ["x"] ["y", "z"]).1 (by decide),
   (C8_split_after_separator ["q"] ["x"] ["y", "z"]).2.1 (by decide)⟩

/-! ### C9 — scratch-directory cleanup of `run_gist` -/

theorem all_filter_of_imp {α : Type} (l : List α) (p q : α → Bool)
    (h : ∀ a, p a = true → q a = true) : (l.filter p).all q = true := by
  induction l with
  | nil => rfl
  | cons x xs ih =>
      by_cases hx : p x = true
      · rw [List.filter_cons_of_pos hx]
        simp [List.all_cons, h x hx, ih]
      · rw [List.filter_cons_of_neg (by simp [hx])]
        exact ih

/-- C9: on every exit path of `run_gist` — fetch failure, extraction
failure, the null-content `ValueError`, the scratch-file write failure,
or (hypothetically) a completed run — the final filesystem contains
neither the scratch directory nor any directory or file under it. -/
theorem C9_scratch_cleanup (env : GistEnv) (fs : FS) (gid : String)
    (content : Option Keys) :
    ((run_gist env fs gid content).2.dirs.all
        fun d => d != env.tempName && !isUnder env.tempName d) = true
    ∧ ((run_gist env fs gid content).2.files.all
        fun f => !isUnder env.tempName f.1) = true := by
  have hfs : (run_gist env fs gid content).2
      = removeTree (runGistBody env ⟨env.tempName :: fs.dirs, fs.files⟩
          gid content env.tempName).2 env.tempName := rfl
  rw [hfs]
  constructor
  · exact all_filter_of_imp _ _ _ (fun a ha => ha)
  · exact all_filter_of_imp _ _ _ (fun a ha => ha)

/-! ### C10 — `binary` permanently overwrites `self.app` -/

/-- C10: calling `run` with a non-null `binary` leaves the instance
state holding that binary, and a subsequent `run` that omits `binary`
builds its command with the most recently supplied binary — the
construction-time executable `app0` no longer appears. -/
theorem C10_binary_overwrites (app0 b s2 : String) (script1 : Option String)
    (args1 args2 : List String) (opts1 opts2 : RunOpts) :
    (Blender.run ⟨app0⟩ script1 (some b) args1 opts1).1 = ⟨b⟩
    ∧ (Blender.run (Blender.run ⟨app0⟩ script1 (some b) args1 opts1).1
        (some s2) none args2 opts2).2
      = .ok (formatCmd b (audioFlag opts2) (guiFlag opts2)
          (runtimeFlag opts2) (ensure_py s2)
          (String.intercalate " " args2)) := by
  constructor
  · cases script1 <;> rfl
  · cases script1 <;> rfl
